import Mathlib

/-!
Shallow embedding of the VoiceRecorderApp session controller (src/App.tsx).

The source file contains two variants of the application:
* the modal variant (the first part of the file): `AppContent` state
  `isRecording`, `isPlaying`, `isPaused`, `showPlaybackModal`,
  `selectedRecording`, plus the `RecordingWaveform` component's `waveData`
  buffer and the `PlaybackModal` component's `currentPosition` cursor;
* the inline-list variant (after the separator): `AppContent` state
  `isRecording`, `isPlaying`, `isPaused`, `currentRecordingPath`.

Each async handler is embedded as a pure function taking a Boolean `ok`
that models whether the awaited engine call (`Sound.*`) resolves or
rejects; the function returns the new component state together with the
list of engine calls it issued.  React `useEffect` blocks that merely
normalise state after a render (`if (!visible) setCurrentPosition(0)`,
`if (!isRecording) setWaveData([])`) are embedded as `applyEffects`,
applied after every state update.  The `setInterval` schedules created
and torn down by the effects in `RecordingWaveform` (line 33) and
`PlaybackModal` (line 99) are represented by the derived predicates
`recClockActive` / `playClockActive`: the interval exists exactly when
the effect's condition holds, and a tick event is a no-op otherwise.
-/

/-- `Recording` record: `{ name, path }` (src/App.tsx lines 20-23). -/
structure Recording where
  name : String
  path : String
deriving DecidableEq

/-- The five-call engine contract (`Sound.*` invocations in src/App.tsx). -/
inductive EngineCall where
  | startRecorder (path : String)
  | pauseRecorder
  | resumeRecorder
  | stopRecorder
  | startPlayer (path : String)
  | pausePlayer
  | resumePlayer
  | stopPlayer
deriving DecidableEq

/-- Combined state of the modal-variant app: `AppContent`'s `useState`
hooks (lines 217-222) together with the local state of
`RecordingWaveform` (`waveData`, line 30) and `PlaybackModal`
(`currentPosition`, line 96) and the number of playback listeners
registered with `Sound.addPlayBackListener` (line 319, which registers a
new listener on every start without removing the previous one). -/
structure ModalApp where
  isRecording : Bool
  isPlaying : Bool
  isPaused : Bool
  showPlaybackModal : Bool
  selectedRecording : Option Recording
  currentPosition : Nat
  waveData : List ℚ
  listeners : Nat
deriving DecidableEq

/-- Initial state: all `useState` initialisers. -/
def initModal : ModalApp :=
  { isRecording := false, isPlaying := false, isPaused := false,
    showPlaybackModal := false, selectedRecording := none,
    currentPosition := 0, waveData := [], listeners := 0 }

/-- Length of the static reference waveform in `PlaybackModal`:
`Array.from({ length: 100 }, ...)` (line 94). -/
def refLength : Nat := 100

/-- JavaScript `arr.slice(-n)`: the last `n` elements (all of them when
`arr.length < n`). -/
def lastN (n : Nat) (l : List α) : List α := l.drop (l.length - n)

/-- One push into the live-recording waveform buffer:
`[...prev, sample].slice(-50)` (src/App.tsx lines 37-40). -/
def wavePush (prev : List ℚ) (x : ℚ) : List ℚ := lastN 50 (prev ++ [x])

/-- State-normalising render effects: `PlaybackModal` resets
`currentPosition` to 0 when the modal is not visible (lines 125-129) and
`RecordingWaveform` clears `waveData` when not recording (lines 48-50). -/
def applyEffects (s : ModalApp) : ModalApp :=
  { s with
    currentPosition := if s.showPlaybackModal then s.currentPosition else 0,
    waveData := if s.isRecording then s.waveData else [] }

/-- The `RecordingWaveform` effect (line 34) keeps a `setInterval`
schedule alive exactly when `isRecording && !isPaused`; otherwise it
calls `clearInterval`. -/
def recClockActive (s : ModalApp) : Bool := s.isRecording && !s.isPaused

/-- The `PlaybackModal` effect (line 100) keeps a `setInterval` schedule
alive exactly when `isPlaying && !isPaused && visible`; otherwise it
calls `clearInterval`. -/
def playClockActive (s : ModalApp) : Bool :=
  s.isPlaying && !s.isPaused && s.showPlaybackModal

/-- `startRecording` (lines 274-283): early-returns when `audioPath` is
undefined; otherwise awaits `Sound.startRecorder(audioPath)`; on success
sets `isRecording = true`, `isPaused = false`; on rejection catches and
logs, leaving all state untouched. -/
def startRecording (audioPath : Option String) (ok : Bool) (s : ModalApp) :
    ModalApp × List EngineCall :=
  match audioPath with
  | none => (s, [])
  | some p =>
    if ok then
      (applyEffects { s with isRecording := true, isPaused := false },
       [EngineCall.startRecorder p])
    else (s, [EngineCall.startRecorder p])

/-- `pauseRecording` (lines 285-292): awaits `Sound.pauseRecorder()`; on
success sets `isPaused = true`; on rejection leaves state untouched. -/
def pauseRecording (ok : Bool) (s : ModalApp) : ModalApp × List EngineCall :=
  if ok then (applyEffects { s with isPaused := true }, [EngineCall.pauseRecorder])
  else (s, [EngineCall.pauseRecorder])

/-- `resumeRecording` (lines 294-301). -/
def resumeRecording (ok : Bool) (s : ModalApp) : ModalApp × List EngineCall :=
  if ok then (applyEffects { s with isPaused := false }, [EngineCall.resumeRecorder])
  else (s, [EngineCall.resumeRecorder])

/-- `stopRecording` (lines 303-312): awaits `Sound.stopRecorder()`; on
success sets `isRecording = false`, `isPaused = false` (then reloads the
catalog, an external call not modelled here); on rejection leaves state
untouched. -/
def stopRecording (ok : Bool) (s : ModalApp) : ModalApp × List EngineCall :=
  if ok then
    (applyEffects { s with isRecording := false, isPaused := false },
     [EngineCall.stopRecorder])
  else (s, [EngineCall.stopRecorder])

/-- `startPlayback` (lines 314-329): awaits `Sound.startPlayer(path)`; on
success sets `isPlaying = true`, `isPaused = false` and registers one
more playback listener; on rejection leaves state untouched. -/
def startPlayback (path : String) (ok : Bool) (s : ModalApp) :
    ModalApp × List EngineCall :=
  if ok then
    (applyEffects
       { s with isPlaying := true, isPaused := false, listeners := s.listeners + 1 },
     [EngineCall.startPlayer path])
  else (s, [EngineCall.startPlayer path])

/-- `pausePlayback` (lines 331-338). -/
def pausePlayback (ok : Bool) (s : ModalApp) : ModalApp × List EngineCall :=
  if ok then (applyEffects { s with isPaused := true }, [EngineCall.pausePlayer])
  else (s, [EngineCall.pausePlayer])

/-- `resumePlayback` (lines 340-347). -/
def resumePlayback (ok : Bool) (s : ModalApp) : ModalApp × List EngineCall :=
  if ok then (applyEffects { s with isPaused := false }, [EngineCall.resumePlayer])
  else (s, [EngineCall.resumePlayer])

/-- `stopPlayback` (lines 349-358): awaits `Sound.stopPlayer()`; on
success sets `isPlaying = false`, `isPaused = false` and closes the
modal; on rejection leaves state untouched. -/
def stopPlayback (ok : Bool) (s : ModalApp) : ModalApp × List EngineCall :=
  if ok then
    (applyEffects
       { s with isPlaying := false, isPaused := false, showPlaybackModal := false },
     [EngineCall.stopPlayer])
  else (s, [EngineCall.stopPlayer])

/-- `handlePlayRecording` (lines 360-364): sets the selected recording,
opens the modal, then calls `startPlayback(recording.path)`. -/
def handlePlayRecording (r : Recording) (ok : Bool) (s : ModalApp) :
    ModalApp × List EngineCall :=
  startPlayback r.path ok
    (applyEffects { s with selectedRecording := some r, showPlaybackModal := true })

/-- One firing of the playback listener registered by
`Sound.addPlayBackListener` with `info.isFinished` (lines 319-325): each
registered listener sets `isPlaying = false`, `isPaused = false` and
closes the modal; with no listener registered nothing runs.  The
listener body makes no engine call. -/
def engineFinish (s : ModalApp) : ModalApp × List EngineCall :=
  if 0 < s.listeners then
    (applyEffects
       { s with isPlaying := false, isPaused := false, showPlaybackModal := false },
     [])
  else (s, [])

/-- One tick of the `PlaybackModal` interval (lines 101-111): fires only
while the schedule exists (`playClockActive`); computes
`newPos = prev + 1`; when `newPos >= playbackWaveData.length` it calls
`onStop()` (which is `stopPlayback`, with outcome `ok`) and resets the
cursor to 0, otherwise the cursor becomes `newPos`. -/
def playbackTick (ok : Bool) (s : ModalApp) : ModalApp × List EngineCall :=
  if playClockActive s then
    if refLength ≤ s.currentPosition + 1 then
      let t := stopPlayback ok s
      (applyEffects { t.1 with currentPosition := 0 }, t.2)
    else
      (applyEffects { s with currentPosition := s.currentPosition + 1 }, [])
  else (s, [])

/-- One tick of the `RecordingWaveform` interval (lines 36-41): fires
only while the schedule exists (`recClockActive`); appends the sampled
amplitude and keeps the last 50 points. -/
def recordingTick (amp : ℚ) (s : ModalApp) : ModalApp :=
  if recClockActive s then applyEffects { s with waveData := wavePush s.waveData amp }
  else s

/-- Run `n` playback ticks, accumulating engine calls. -/
def ticksRun (ok : Bool) : Nat → ModalApp → ModalApp × List EngineCall
  | 0, s => (s, [])
  | n + 1, s =>
    let t := playbackTick ok s
    let r := ticksRun ok n t.1
    (r.1, t.2 ++ r.2)

/-- User events available in the modal-variant UI. -/
inductive UserEvent where
  | pressStartRecording
  | pressPauseRecording
  | pressResumeRecording
  | pressStopRecording
  | pressPlayItem (r : Recording)
deriving DecidableEq

/-- Dispatch of a user press through the conditionally rendered controls
(src/App.tsx lines 391-407 and 375-385): the Start Recording button
exists only when `!isRecording`, Pause only when
`isRecording && !isPaused`, Resume only when `isRecording && isPaused`,
Stop Recording only when `isRecording`; the per-item Play button is
always rendered.  A press whose button is not rendered does nothing and
makes no engine call. -/
def dispatch (audioPath : Option String) (ok : Bool) :
    UserEvent → ModalApp → ModalApp × List EngineCall
  | UserEvent.pressStartRecording, s =>
    if !s.isRecording then startRecording audioPath ok s else (s, [])
  | UserEvent.pressPauseRecording, s =>
    if s.isRecording && !s.isPaused then pauseRecording ok s else (s, [])
  | UserEvent.pressResumeRecording, s =>
    if s.isRecording && s.isPaused then resumeRecording ok s else (s, [])
  | UserEvent.pressStopRecording, s =>
    if s.isRecording then stopRecording ok s else (s, [])
  | UserEvent.pressPlayItem r, s => handlePlayRecording r ok s

/-- State of the inline-list variant `AppContent` (lines 610-616 of the
concatenated source): `useState` hooks `isRecording`, `isPlaying`,
`isPaused`, `currentRecordingPath`, plus the listener count. -/
structure InlineApp where
  isRecording : Bool
  isPlaying : Bool
  isPaused : Bool
  currentRecordingPath : Option String
  listeners : Nat
deriving DecidableEq

/-- Initial inline-variant state. -/
def initInline : InlineApp :=
  { isRecording := false, isPlaying := false, isPaused := false,
    currentRecordingPath := none, listeners := 0 }

/-- Inline-variant `startPlayback` (lines 706-720): awaits
`Sound.startPlayer(path)`; on success sets `isPlaying = true` and
`currentRecordingPath = path` and registers a listener.  It does not
touch `isPaused`. -/
def inlineStartPlayback (path : String) (ok : Bool) (s : InlineApp) :
    InlineApp × List EngineCall :=
  if ok then
    ({ s with isPlaying := true, currentRecordingPath := some path,
              listeners := s.listeners + 1 },
     [EngineCall.startPlayer path])
  else (s, [EngineCall.startPlayer path])

/-- Inline-variant `pausePlayback` (lines 722-729). -/
def inlinePausePlayback (ok : Bool) (s : InlineApp) : InlineApp × List EngineCall :=
  if ok then ({ s with isPaused := true }, [EngineCall.pausePlayer])
  else (s, [EngineCall.pausePlayer])

/-- Inline-variant `resumePlayback` (lines 731-738). -/
def inlineResumePlayback (ok : Bool) (s : InlineApp) : InlineApp × List EngineCall :=
  if ok then ({ s with isPaused := false }, [EngineCall.resumePlayer])
  else (s, [EngineCall.resumePlayer])

/-- Inline-variant `stopPlayback` (lines 740-749). -/
def inlineStopPlayback (ok : Bool) (s : InlineApp) : InlineApp × List EngineCall :=
  if ok then
    ({ s with isPlaying := false, isPaused := false, currentRecordingPath := none },
     [EngineCall.stopPlayer])
  else (s, [EngineCall.stopPlayer])

/-- The inline-variant per-item Play/Pause button handler
(lines 757-767): if the pressed item is the currently playing one,
toggle pause/resume; otherwise call `startPlayback(item.path)`. -/
def inlinePressPlay (path : String) (ok : Bool) (s : InlineApp) :
    InlineApp × List EngineCall :=
  if s.currentRecordingPath = some path ∧ s.isPlaying = true then
    if s.isPaused then inlineResumePlayback ok s else inlinePausePlayback ok s
  else inlineStartPlayback path ok s

/-- A sample recording used by concrete executions. -/
def demoRec : Recording := { name := "a.mp4", path := "/rec/a.mp4" }

/-! ### Helper lemmas about the sliding-window buffer -/

theorem lastN_length (n : Nat) (l : List α) : (lastN n l).length = min n l.length := by
  simp [lastN]
  omega

theorem lastN_of_length_le (n : Nat) (l : List α) (h : l.length ≤ n) :
    lastN n l = l := by
  simp [lastN, Nat.sub_eq_zero_of_le h]

theorem lastN_append (n : Nat) (A B : List α) (h : n ≤ B.length) :
    lastN n (A ++ B) = lastN n B := by
  unfold lastN
  rw [List.length_append]
  have h2 : A.length + B.length - n = A.length + (B.length - n) := by omega
  rw [h2, List.drop_append]

theorem lastN_lastN_append (n : Nat) (l m : List α) :
    lastN n (lastN n l ++ m) = lastN n (l ++ m) := by
  by_cases h : l.length ≤ n
  · rw [lastN_of_length_le n l h]
  · push_neg at h
    have hdef : lastN n l = List.drop (l.length - n) l := rfl
    have hB : n ≤ (List.drop (l.length - n) l ++ m).length := by
      rw [List.length_append, List.length_drop]
      omega
    conv_rhs =>
      rw [← List.take_append_drop (l.length - n) l, List.append_assoc]
    rw [hdef, lastN_append n _ _ hB]

theorem foldl_wavePush (ws : List ℚ) (x : ℚ) (b : List ℚ) :
    List.foldl wavePush b (x :: ws) = lastN 50 (b ++ x :: ws) := by
  induction ws generalizing x b with
  | nil => simp [List.foldl, wavePush]
  | cons y ws ih =>
    rw [List.foldl_cons, ih y (wavePush b x), wavePush, lastN_lastN_append,
        List.append_assoc]
    simp

/-! ### Helper lemmas about the playback session -/

/-- The state reached after a successful `handlePlayRecording demoRec`
with the progress cursor at `k`. -/
def sPlay (k : Nat) : ModalApp :=
  { isRecording := false, isPlaying := true, isPaused := false,
    showPlaybackModal := true, selectedRecording := some demoRec,
    currentPosition := k, waveData := [], listeners := 1 }

/-- The state after the playback session has finished. -/
def sDone : ModalApp :=
  { isRecording := false, isPlaying := false, isPaused := false,
    showPlaybackModal := false, selectedRecording := some demoRec,
    currentPosition := 0, waveData := [], listeners := 1 }

theorem tick_sPlay (k : Nat) (h : k + 1 < 100) :
    playbackTick true (sPlay k) = (sPlay (k + 1), []) := by
  have hno : ¬ refLength ≤ k + 1 := by simp [refLength]; omega
  simp [playbackTick, playClockActive, sPlay, applyEffects, hno]

theorem tick_sPlay_end : playbackTick true (sPlay 99) = (sDone, [EngineCall.stopPlayer]) := by
  simp [playbackTick, playClockActive, sPlay, sDone, applyEffects, stopPlayback, refLength]

theorem tick_sDone : playbackTick true sDone = (sDone, []) := by
  simp [playbackTick, playClockActive, sDone]

theorem engineFinish_sDone : engineFinish sDone = (sDone, []) := by
  simp [engineFinish, sDone, applyEffects]

theorem ticksRun_sPlay (k n : Nat) (h : k + n ≤ 99) :
    ticksRun true n (sPlay k) = (sPlay (k + n), []) := by
  induction n generalizing k with
  | zero => simp [ticksRun]
  | succ n ih =>
    have h1 : k + 1 < 100 := by omega
    have h2 : (k + 1) + n ≤ 99 := by omega
    have h3 : (k + 1) + n = k + (n + 1) := by omega
    simp [ticksRun, tick_sPlay k h1, ih (k + 1) h2, h3]

theorem ticksRun_split (ok : Bool) (m n : Nat) (s : ModalApp) :
    ticksRun ok (m + n) s =
      ((ticksRun ok n (ticksRun ok m s).1).1,
       (ticksRun ok m s).2 ++ (ticksRun ok n (ticksRun ok m s).1).2) := by
  induction m generalizing s with
  | zero => simp [ticksRun]
  | succ m ih =>
    have h : m + 1 + n = (m + n) + 1 := by omega
    rw [h]
    simp [ticksRun, ih]

theorem handlePlay_initModal :
    handlePlayRecording demoRec true initModal =
      (sPlay 0, [EngineCall.startPlayer "/rec/a.mp4"]) := by
  simp [handlePlayRecording, startPlayback, applyEffects, initModal, sPlay, demoRec]

/-! ### Claim theorems -/

/-- C2: for every starting buffer state and every sequence of more than
C = 50 pushes into the live-recording waveform buffer, the result has
length exactly 50 and is exactly the last 50 pushed values in push
order (the FIFO sliding window), and no push ever produces a buffer
longer than 50. -/
theorem wavePush_slidingWindow (b ws : List ℚ) (hlen : 50 < ws.length) :
    List.foldl wavePush b ws = lastN 50 ws ∧
    (List.foldl wavePush b ws).length = 50 ∧
    ∀ (l : List ℚ) (x : ℚ), (wavePush l x).length ≤ 50 := by
  obtain ⟨x, ws', rfl⟩ : ∃ x ws', ws = x :: ws' := by
    cases ws with
    | nil => simp at hlen
    | cons x ws' => exact ⟨x, ws', rfl⟩
  refine ⟨?_, ?_, ?_⟩
  · rw [foldl_wavePush, lastN_append 50 b _ (by omega)]
  · rw [foldl_wavePush, lastN_length, List.length_append]
    omega
  · intro l x'
    rw [wavePush, lastN_length]
    omega

theorem wavePush_slidingWindow_witness :
    50 < (List.replicate 51 (2 : ℚ)).length ∧
    (List.foldl wavePush [(1 : ℚ)] (List.replicate 51 (2 : ℚ)) =
       lastN 50 (List.replicate 51 (2 : ℚ)) ∧
     (List.foldl wavePush [(1 : ℚ)] (List.replicate 51 (2 : ℚ))).length = 50 ∧
     ∀ (l : List ℚ) (x : ℚ), (wavePush l x).length ≤ 50) :=
  ⟨by simp, wavePush_slidingWindow [(1 : ℚ)] (List.replicate 51 (2 : ℚ)) (by simp)⟩

/-- C6: when the engine rejects `startRecorder` or `startPlayer`, the
controller catches the error and the state is exactly the state from
before the call (so from `Idle` it stays `Idle`, no session flag is set,
no listener is registered, the waveform buffer field is untouched), and
exactly one engine call was attempted (no automatic retry). -/
theorem startFailure_leavesState (s : ModalApp) (p : String) :
    startRecording (some p) false s = (s, [EngineCall.startRecorder p]) ∧
    startPlayback p false s = (s, [EngineCall.startPlayer p]) := by
  constructor <;> rfl

/-- C7 counterexample: the claim says a rejected stop still forces the
local state back toward `Idle`; in the code a rejected
`Sound.stopRecorder` / `Sound.stopPlayer` jumps to the catch block
before any state setter runs, so a recording state stays recording and a
playing state stays playing. -/
theorem stopFailure_counterexample :
    (stopRecording false { initModal with isRecording := true }).1.isRecording = true ∧
    (stopPlayback false (sPlay 0)).1.isPlaying = true := by
  constructor <;> rfl

/-- C7 amended: when the engine rejects a stop call, the controller
catches the error and leaves its local state entirely unchanged — it
remains in the Recording/Playing state rather than being forced back to
Idle. -/
theorem stopFailure_stateUnchanged (s : ModalApp) :
    stopRecording false s = (s, [EngineCall.stopRecorder]) ∧
    stopPlayback false s = (s, [EngineCall.stopPlayer]) := by
  constructor <;> rfl

/-- C8 counterexample: the claim says pausing leaves the SampleClock's
schedule untouched and ticks keep firing while paused; in the code the
`useEffect` condition (`isRecording && !isPaused`, resp.
`isPlaying && !isPaused && visible`) becomes false on pause and the
effect calls `clearInterval`, so the schedule is cancelled: before the
pause the recording clock is active, after a successful pause it is
not. -/
theorem pauseCancelsClock_counterexample :
    recClockActive { initModal with isRecording := true } = true ∧
    recClockActive (pauseRecording true { initModal with isRecording := true }).1 = false ∧
    playClockActive (sPlay 0) = true ∧
    playClockActive (pausePlayback true (sPlay 0)).1 = false := by
  refine ⟨rfl, ?_, rfl, ?_⟩ <;> rfl

/-- C8 amended: `pause` on an active session sets the paused flag and the
render effect cancels the interval schedule (`clearInterval`), so the
clock is not active while paused and a tick event cannot fire (a tick in
a paused state is a no-op); suppression is by cancelling the schedule,
not by a paused-flag check inside a still-firing tick. -/
theorem pauseCancelsClock (s : ModalApp) (amp : ℚ) :
    (pauseRecording true s).1.isPaused = true ∧
    recClockActive (pauseRecording true s).1 = false ∧
    recordingTick amp (pauseRecording true s).1 = (pauseRecording true s).1 ∧
    (pausePlayback true s).1.isPaused = true ∧
    playClockActive (pausePlayback true s).1 = false := by
  refine ⟨?_, ?_, ?_, ?_, ?_⟩ <;>
    simp [pauseRecording, pausePlayback, recClockActive, playClockActive,
          recordingTick, applyEffects]

/-- C10: the inline-list variant's `startPlayback` sets only the playing
flag and the current recording path and leaves the shared `isPaused`
flag exactly as it was (so a session begun while `isPaused = true` stays
paused), whereas the modal variant's `startPlayback` resets `isPaused`
to false. -/
theorem inlineStart_preservesPaused (s : InlineApp) (s2 : ModalApp) (p q : String) :
    (inlineStartPlayback p true s).1.isPaused = s.isPaused ∧
    (inlineStartPlayback p true s).1.isPlaying = true ∧
    (inlineStartPlayback p true s).1.currentRecordingPath = some p ∧
    (startPlayback q true s2).1.isPaused = false := by
  refine ⟨?_, ?_, ?_, ?_⟩ <;> simp [inlineStartPlayback, startPlayback, applyEffects]

/-- C1 (violated by the code): the claim says a request to start a
recording while playback is active (or vice versa) is rejected or
serialized, so no reachable state has both session flags set.  Neither
`startRecording` nor `handlePlayRecording` checks the other session, and
the recordings list with its Play buttons stays rendered while
recording: from the initial state, pressing Start Recording (engine
accepts) and then pressing Play on a recording (engine accepts) reaches
a state with `isRecording = true` and `isPlaying = true`
simultaneously. -/
theorem mutualExclusion_violated :
    ((dispatch (some "rec.mp4") true (UserEvent.pressPlayItem demoRec)
        (dispatch (some "rec.mp4") true UserEvent.pressStartRecording initModal).1).1.isRecording
       = true) ∧
    ((dispatch (some "rec.mp4") true (UserEvent.pressPlayItem demoRec)
        (dispatch (some "rec.mp4") true UserEvent.pressStartRecording initModal).1).1.isPlaying
       = true) := by
  constructor <;> rfl

/-- C5: a controller operation invoked from a state whose tag does not
permit it is a no-op: the UI renders the Pause / Resume / Stop Recording
buttons only in the matching recording states, so with
`isRecording = false` (Idle) a pause press (and likewise resume and
stop) dispatches to nothing — no engine call is made and the state is
unchanged. -/
theorem invalidOp_noop (s : ModalApp) (p : Option String) (ok : Bool)
    (h : s.isRecording = false) :
    dispatch p ok UserEvent.pressPauseRecording s = (s, []) ∧
    dispatch p ok UserEvent.pressResumeRecording s = (s, []) ∧
    dispatch p ok UserEvent.pressStopRecording s = (s, []) := by
  refine ⟨?_, ?_, ?_⟩ <;> simp [dispatch, h]

theorem invalidOp_noop_witness :
    initModal.isRecording = false ∧
    (dispatch (some "rec.mp4") true UserEvent.pressPauseRecording initModal =
       (initModal, []) ∧
     dispatch (some "rec.mp4") true UserEvent.pressResumeRecording initModal =
       (initModal, []) ∧
     dispatch (some "rec.mp4") true UserEvent.pressStopRecording initModal =
       (initModal, [])) :=
  ⟨rfl, invalidOp_noop initModal (some "rec.mp4") true rfl⟩

/-- C9 counterexample: the claim says starting a player while already
playing a different recording first performs an implicit stop, engine
`stopPlayer` included; in the code the second press goes straight to
`Sound.startPlayer(newPath)` — the engine-call list of the second start
is exactly `[startPlayer newPath]` and contains no `stopPlayer`. -/
theorem replayDifferent_counterexample :
    ((inlinePressPlay "/rec/a.mp4" true initInline).1.isPlaying = true) ∧
    ((inlinePressPlay "/rec/a.mp4" true initInline).1.currentRecordingPath
       = some "/rec/a.mp4") ∧
    ((inlinePressPlay "/rec/b.mp4" true
        (inlinePressPlay "/rec/a.mp4" true initInline).1).2
       = [EngineCall.startPlayer "/rec/b.mp4"]) ∧
    EngineCall.stopPlayer ∉
      (inlinePressPlay "/rec/b.mp4" true
        (inlinePressPlay "/rec/a.mp4" true initInline).1).2 := by
  refine ⟨rfl, rfl, ?_, ?_⟩
  · rfl
  · decide

/-- C9 amended: pressing Play for a different recording while playing
does not stop the previous session: the controller calls the engine's
`startPlayer` for the new path directly (no `stopPlayer` is issued, in
either variant) and merely overwrites the playing target and registers
one more listener. -/
theorem replayDifferent_noImplicitStop (s : InlineApp) (p q : String)
    (_hplay : s.isPlaying = true) (hcur : s.currentRecordingPath = some p)
    (hne : p ≠ q) :
    inlinePressPlay q true s =
      ({ s with isPlaying := true, currentRecordingPath := some q,
                listeners := s.listeners + 1 }, [EngineCall.startPlayer q]) ∧
    EngineCall.stopPlayer ∉ (inlinePressPlay q true s).2 ∧
    ∀ (sm : ModalApp) (r : Recording),
      EngineCall.stopPlayer ∉ (handlePlayRecording r true sm).2 := by
  have hcond : ¬(s.currentRecordingPath = some q ∧ s.isPlaying = true) := by
    rintro ⟨h1, _⟩
    rw [hcur] at h1
    exact hne (Option.some.inj h1)
  refine ⟨?_, ?_, ?_⟩
  · simp [inlinePressPlay, hcond, inlineStartPlayback]
  · simp [inlinePressPlay, hcond, inlineStartPlayback]
  · intro sm r
    simp [handlePlayRecording, startPlayback]

/-- A concrete inline-variant playing state used by the C9 witness. -/
def sInlinePlay : InlineApp :=
  { isRecording := false, isPlaying := true, isPaused := false,
    currentRecordingPath := some "/rec/a.mp4", listeners := 1 }

theorem replayDifferent_noImplicitStop_witness :
    sInlinePlay.isPlaying = true ∧
    sInlinePlay.currentRecordingPath = some "/rec/a.mp4" ∧
    "/rec/a.mp4" ≠ "/rec/b.mp4" ∧
    (inlinePressPlay "/rec/b.mp4" true sInlinePlay =
       ({ sInlinePlay with isPlaying := true,
                           currentRecordingPath := some "/rec/b.mp4",
                           listeners := sInlinePlay.listeners + 1 },
        [EngineCall.startPlayer "/rec/b.mp4"]) ∧
     EngineCall.stopPlayer ∉ (inlinePressPlay "/rec/b.mp4" true sInlinePlay).2 ∧
     ∀ (sm : ModalApp) (r : Recording),
       EngineCall.stopPlayer ∉ (handlePlayRecording r true sm).2) :=
  ⟨rfl, rfl, by decide,
   replayDifferent_noImplicitStop sInlinePlay "/rec/a.mp4" "/rec/b.mp4" rfl rfl
     (by decide)⟩

/-- C3: while playing, unpaused and visible (the condition under which
the `PlaybackModal` interval exists), a tick with the cursor below
`refLength - 1` advances the cursor by exactly 1 and changes nothing
else; the cursor never leaves `[0, refLength]`; and the tick on which
`prev + 1` reaches `refLength = 100` performs the stop transition —
engine `stopPlayer`, playing flag cleared (Idle), cursor reset to 0 and
the clock schedule cancelled — producing the same state as an
engine-reported finish would. -/
theorem playbackTick_spec (s : ModalApp)
    (hnorm : applyEffects s = s)
    (hp : s.isPlaying = true) (hpa : s.isPaused = false)
    (hv : s.showPlaybackModal = true) (hl : 0 < s.listeners) :
    (s.currentPosition + 1 < refLength →
      playbackTick true s = ({ s with currentPosition := s.currentPosition + 1 }, [])) ∧
    (s.currentPosition ≤ refLength →
      (playbackTick true s).1.currentPosition ≤ refLength) ∧
    (refLength ≤ s.currentPosition + 1 →
      playbackTick true s =
        ({ s with isPlaying := false, isPaused := false,
                  showPlaybackModal := false, currentPosition := 0 },
         [EngineCall.stopPlayer]) ∧
      playClockActive (playbackTick true s).1 = false ∧
      (playbackTick true s).1 = (engineFinish s).1) := by
  have hwave : (if s.isRecording then s.waveData else []) = s.waveData :=
    congrArg ModalApp.waveData hnorm
  have hact : playClockActive s = true := by
    simp [playClockActive, hp, hpa, hv]
  have hstop : refLength ≤ s.currentPosition + 1 →
      playbackTick true s =
        ({ s with isPlaying := false, isPaused := false,
                  showPlaybackModal := false, currentPosition := 0 },
         [EngineCall.stopPlayer]) := by
    intro hge
    simp [playbackTick, hact, hge, stopPlayback, applyEffects, hwave]
  refine ⟨?_, ?_, ?_⟩
  · intro hlt
    have hno : ¬ refLength ≤ s.currentPosition + 1 := by omega
    simp [playbackTick, hact, hno, applyEffects, hv, hwave]
  · intro _
    by_cases hge : refLength ≤ s.currentPosition + 1
    · rw [hstop hge]
      simp [refLength]
    · have hlt : s.currentPosition + 1 < refLength := by omega
      simp only [playbackTick, hact, if_true]
      rw [if_neg hge]
      simp [applyEffects, hv]
      omega
  · intro hge
    refine ⟨hstop hge, ?_, ?_⟩
    · rw [hstop hge]
      simp [playClockActive]
    · rw [hstop hge]
      simp [engineFinish, hl, applyEffects, hwave]

theorem playbackTick_spec_witness :
    applyEffects (sPlay 99) = sPlay 99 ∧
    (sPlay 99).isPlaying = true ∧
    (sPlay 99).isPaused = false ∧
    (sPlay 99).showPlaybackModal = true ∧
    0 < (sPlay 99).listeners ∧
    refLength ≤ (sPlay 99).currentPosition + 1 ∧
    (playbackTick true (sPlay 99) =
       ({ sPlay 99 with isPlaying := false, isPaused := false,
                        showPlaybackModal := false, currentPosition := 0 },
        [EngineCall.stopPlayer]) ∧
     playClockActive (playbackTick true (sPlay 99)).1 = false ∧
     (playbackTick true (sPlay 99)).1 = (engineFinish (sPlay 99)).1) :=
  ⟨rfl, rfl, rfl, rfl, by decide, by decide,
   (playbackTick_spec (sPlay 99) rfl rfl rfl rfl (by decide)).2.2 (by decide)⟩

/-- C4: starting playback of a recording and advancing the clock exactly
`refLength = 100` ticks takes the player from `Playing` (still playing
after 99 ticks) to `Idle` exactly once, with engine `stopPlayer` in the
whole session's call trace exactly once; an engine finish notification
arriving after the clock has completed the transition is a no-op (same
state, no engine call), and so is any further tick (the schedule is
gone), so the transition cannot fire twice. -/
theorem playbackFinish_once :
    handlePlayRecording demoRec true initModal =
      (sPlay 0, [EngineCall.startPlayer "/rec/a.mp4"]) ∧
    (ticksRun true 99 (sPlay 0)).1.isPlaying = true ∧
    ticksRun true 100 (sPlay 0) = (sDone, [EngineCall.stopPlayer]) ∧
    sDone.isPlaying = false ∧
    sDone.currentPosition = 0 ∧
    ((handlePlayRecording demoRec true initModal).2 ++
       (ticksRun true 100 (sPlay 0)).2 ++
       (engineFinish sDone).2).count EngineCall.stopPlayer = 1 ∧
    engineFinish sDone = (sDone, []) ∧
    playbackTick true sDone = (sDone, []) := by
  have h99 : ticksRun true 99 (sPlay 0) = (sPlay 99, []) := by
    simpa using ticksRun_sPlay 0 99 (by omega)
  have h100 : ticksRun true 100 (sPlay 0) = (sDone, [EngineCall.stopPlayer]) := by
    have he : (100 : Nat) = 99 + 1 := by norm_num
    rw [he, ticksRun_split, h99]
    simp [ticksRun, tick_sPlay_end]
  refine ⟨handlePlay_initModal, ?_, h100, rfl, rfl, ?_, engineFinish_sDone, tick_sDone⟩
  · rw [h99]
    rfl
  · rw [handlePlay_initModal, h100, engineFinish_sDone]
    decide
